import Mathlib

/-!
Verification of the request-lifecycle and service-lifecycle coordinator of
`server/web/__init__.py` (logistics-wizard), shallowly embedded in Lean 4.

Embedding conventions:
* Python exceptions are modelled as explicit values; a function that may raise
  returns `Except String α`, where the error string is the exception rendering.
* The external collaborators (Flask, `ServicePublisher`, the logger) are
  modelled only through the calls the source makes to them; the
  `deregister_service` call is an abstract parameter so that its possible
  behaviours (succeeding, clearing the flag, raising) can be quantified over.
* `request_wants_json` (from `server/web/utils.py`, not in the sources) is
  modelled as a boolean parameter giving the Accept-negotiation result.
* Logging side effects are elided: they do not influence any response value.
-/

/-- Modelled from the spec: `APIException` (`server/exceptions.py`, not under
the provided sources) carries a client-visible `message`, an HTTP
`status_code`, and an opaque `internal_details` diagnostic.  Per the taxonomy,
an unclassified failure wrapped at the boundary is an `InternalError` with
status 500, so the constructor used by `exception_handler`
(`APIException(u'Server Error', internal_details=unicode(e))`) defaults
`status_code` to 500. -/
structure APIException where
  message : String
  status_code : Nat := 500
  internal_details : Option String := none
  deriving Repr, DecidableEq

/-- A failure raised while handling a request: either already an
`APIException`, or any other Python exception, kept only as its string
rendering `unicode(e)`. -/
inductive RaisedFailure where
  | api (e : APIException)
  | untyped (rendering : String)
  deriving Repr, DecidableEq

/-- Modelled from the spec: `compose_error` (`server/web/utils.py`, not under
the provided sources) derives the wire-level `ErrorResponseBody` — a JSON
object with fields `code` and `message` — from the classified `ApiError`;
the second argument (the original failure) does not enter the body. -/
structure ErrorBody where
  code : Nat
  message : String
  deriving Repr, DecidableEq

def compose_error (exc : APIException) (_e : RaisedFailure) : ErrorBody :=
  { code := exc.status_code, message := exc.message }

/-- A Flask `Response` as built by the handlers in `server/web/__init__.py`:
a JSON body, an HTTP status, and a mimetype. -/
structure Response where
  body : ErrorBody
  status : Nat
  mimetype : String
  deriving Repr, DecidableEq

/-- Embedding of `exception_handler` (`server/web/__init__.py` lines 63-80):
if the raised failure is not an `APIException` it is wrapped as
`APIException(u'Server Error', internal_details=unicode(e))`; otherwise it is
used as is.  The response is `Response(json.dumps(compose_error(exc, e)),
status=exc.status_code, mimetype='application/json')`. -/
def exception_handler (e : RaisedFailure) : Response :=
  let exc : APIException :=
    match e with
    | .untyped s => { message := "Server Error", internal_details := some s }
    | .api a => a
  { body := compose_error exc e
    status := exc.status_code
    mimetype := "application/json" }

/-- Embedding of `not_found_handler` (`server/web/__init__.py` lines 82-95):
when `request_wants_json()` holds, a JSON 404 response with body
`code = 404, message = "Resource not found."`; otherwise the handler body is
`pass`, i.e. it produces no response (`none`). -/
def not_found_handler (wantsJson : Bool) : Option Response :=
  if wantsJson then
    some { body := { code := 404, message := "Resource not found." }
           status := 404
           mimetype := "application/json" }
  else
    none

/-- Embedding of `bad_request_handler` (`server/web/__init__.py` lines
97-105): unconditionally a JSON 400 response with body
`code = 400, message = "Bad request."`.  The Accept-negotiation result is
taken as a parameter to record that the source never consults it. -/
def bad_request_handler (_wantsJson : Bool) : Response :=
  { body := { code := 400, message := "Bad request." }
    status := 400
    mimetype := "application/json" }

/-- C2: for every raised failure that is not an `APIException`, the exception
handler produces a response with status 500 whose client-visible message field
is exactly "Server Error"; the message field is the same for every such
failure, so the failure's `internal_details` rendering never influences (nor
appears as) the client-visible message. -/
theorem c2_untyped_failure_is_opaque_500 (s t : String) :
    (exception_handler (.untyped s)).status = 500
    ∧ (exception_handler (.untyped s)).body.message = "Server Error"
    ∧ (exception_handler (.untyped s)).body.message
        = (exception_handler (.untyped t)).body.message := by
  refine ⟨rfl, rfl, rfl⟩

/-- C7: a raised failure that already is an `APIException` is passed through
unchanged: the emitted response's HTTP status is the exception's own
`status_code`, and the body is composed from that very exception. -/
theorem c7_api_exception_passthrough (a : APIException) :
    (exception_handler (.api a)).status = a.status_code
    ∧ (exception_handler (.api a)).body = compose_error a (.api a)
    ∧ (exception_handler (.api a)).body.message = a.message := by
  refine ⟨rfl, rfl, rfl⟩

/-- C4: on an unmatched route whose Accept negotiation prefers JSON, the 404
handler returns status 404, JSON content type, and body exactly
`code = 404, message = "Resource not found."`. -/
theorem c4_json_404_body (wantsJson : Bool) (h : wantsJson = true) :
    not_found_handler wantsJson
      = some { body := { code := 404, message := "Resource not found." }
               status := 404
               mimetype := "application/json" } := by
  subst h; rfl

/-- Witness for C4 at the concrete input `wantsJson = true`. -/
theorem c4_json_404_body_witness :
    not_found_handler true
      = some { body := { code := 404, message := "Resource not found." }
               status := 404
               mimetype := "application/json" } :=
  c4_json_404_body true rfl

/-- C5: on an unmatched route whose Accept negotiation does not prefer JSON,
the 404 handler produces no response at all (the JSON 404 body is not
produced; the request falls through to default handling). -/
theorem c5_non_json_404_falls_through (wantsJson : Bool) (h : wantsJson = false) :
    not_found_handler wantsJson = none := by
  subst h; rfl

/-- Witness for C5 at the concrete input `wantsJson = false`. -/
theorem c5_non_json_404_falls_through_witness :
    not_found_handler false = none :=
  c5_non_json_404_falls_through false rfl

/-- C6: the 400 handler returns status 400, JSON content type, and body
exactly `code = 400, message = "Bad request."`, and its output is identical
for every Accept-negotiation result. -/
theorem c6_bad_request_body_independent_of_accept (a b : Bool) :
    bad_request_handler a
      = { body := { code := 400, message := "Bad request." }
          status := 400
          mimetype := "application/json" }
    ∧ bad_request_handler a = bad_request_handler b := by
  refine ⟨rfl, rfl⟩

/-- The `ServicePublisher` handle as the lifecycle code uses it: only its
`registered` flag is ever consulted (`publisher.registered`,
`server/web/__init__.py` line 142). -/
structure Publisher where
  registered : Bool
  deriving Repr, DecidableEq

/-- State threaded through the deregistration routines: the module-level
`publisher` reference (possibly `None`) together with a counter of the calls
made so far to the external `publisher.deregister_service()`. -/
structure DeregState where
  publisher : Option Publisher
  deregisterCalls : Nat
  deriving Repr, DecidableEq

/-- Embedding of `deregister_app` (`server/web/__init__.py` lines 136-144).
`svc` is the external `ServicePublisher.deregister_service` call, which may
raise (`Except.error`) or return the updated publisher.  The Python guard
`if publisher is not None and publisher.registered` short-circuits, so
`registered` is read only when the publisher is present; when the guard
fails the routine returns without calling `svc` and without raising. -/
def deregister_app (svc : Publisher → Except String Publisher)
    (s : DeregState) : Except String DeregState :=
  match s.publisher with
  | none => .ok s
  | some p =>
    if p.registered then
      match svc p with
      | .ok q => .ok { publisher := some q, deregisterCalls := s.deregisterCalls + 1 }
      | .error m => .error m
    else
      .ok s

/-- Embedding of `destroy_app` (`server/web/__init__.py` lines 147-153): its
body is exactly a call to `deregister_app(publisher)`. -/
def destroy_app (svc : Publisher → Except String Publisher)
    (s : DeregState) : Except String DeregState :=
  deregister_app svc s

/-- Sequential invocation of the deregistration routine `n` times on the same
publisher state, as in the spec's scenario of several shutdown triggers firing
in sequence; a raised exception from any invocation propagates. -/
def iterate_deregister (svc : Publisher → Except String Publisher) :
    Nat → DeregState → Except String DeregState
  | 0, s => .ok s
  | n + 1, s => (deregister_app svc s).bind (iterate_deregister svc n)

theorem deregister_app_unregistered (svc : Publisher → Except String Publisher)
    (s : DeregState) (q : Publisher) (hp : s.publisher = some q)
    (hr : q.registered = false) : deregister_app svc s = .ok s := by
  simp [deregister_app, hp, hr]

theorem iterate_deregister_unregistered
    (svc : Publisher → Except String Publisher) (n : Nat) (s : DeregState)
    (q : Publisher) (hp : s.publisher = some q) (hr : q.registered = false) :
    iterate_deregister svc n s = .ok s := by
  induction n with
  | zero => rfl
  | succ n ih =>
    simp [iterate_deregister, deregister_app_unregistered svc s q hp hr,
      Except.bind, ih]

/-- C1: under the precondition that `publisher.deregister_service` succeeds
and clears the publisher's `registered` flag, invoking `deregister_app` twice
in sequence on a registered publisher makes exactly one call to
`deregister_service`; moreover, any number of sequential shutdown triggers
makes exactly one call, so deregistration is attempted at most once. -/
theorem c1_deregister_at_most_once
    (svc : Publisher → Except String Publisher)
    (hsvc : ∀ p, Except.map Publisher.registered (svc p) = .ok false)
    (s : DeregState) (p : Publisher) (hp : s.publisher = some p)
    (hr : p.registered = true) (n : Nat) :
    Except.map DeregState.deregisterCalls (iterate_deregister svc 2 s)
      = .ok (s.deregisterCalls + 1)
    ∧ Except.map DeregState.deregisterCalls (iterate_deregister svc (n + 1) s)
      = .ok (s.deregisterCalls + 1) := by
  obtain ⟨q, hq, hqr⟩ : ∃ q, svc p = .ok q ∧ q.registered = false := by
    have h := hsvc p
    cases hsvcp : svc p with
    | error m => rw [hsvcp] at h; simp [Except.map] at h
    | ok q =>
      rw [hsvcp] at h
      simp only [Except.map] at h
      exact ⟨q, rfl, by injection h⟩
  have hfirst : deregister_app svc s
      = .ok { publisher := some q, deregisterCalls := s.deregisterCalls + 1 } := by
    simp [deregister_app, hp, hr, hq]
  have hrest : ∀ m : Nat, iterate_deregister svc m
      { publisher := some q, deregisterCalls := s.deregisterCalls + 1 }
      = .ok { publisher := some q, deregisterCalls := s.deregisterCalls + 1 } :=
    fun m => iterate_deregister_unregistered svc m _ q rfl hqr
  constructor
  · show Except.map _ ((deregister_app svc s).bind _) = _
    rw [hfirst]
    show Except.map _ (iterate_deregister svc 1 _) = _
    rw [hrest 1]
    rfl
  · show Except.map _ ((deregister_app svc s).bind _) = _
    rw [hfirst]
    show Except.map _ (iterate_deregister svc n _) = _
    rw [hrest n]
    rfl

/-- Witness for C1: a deregister call that succeeds and clears the flag, a
registered publisher, and five sequential triggers. -/
theorem c1_deregister_at_most_once_witness :
    Except.map DeregState.deregisterCalls
      (iterate_deregister (fun _ => .ok { registered := false }) 2
        { publisher := some { registered := true }, deregisterCalls := 0 })
      = .ok 1
    ∧ Except.map DeregState.deregisterCalls
      (iterate_deregister (fun _ => .ok { registered := false }) 5
        { publisher := some { registered := true }, deregisterCalls := 0 })
      = .ok 1 :=
  c1_deregister_at_most_once (fun _ => .ok { registered := false })
    (fun _ => rfl)
    { publisher := some { registered := true }, deregisterCalls := 0 }
    { registered := true } rfl rfl 4

/-- C9: `destroy_app` and `deregister_app` are extensionally equal: for every
deregister-call behaviour and every publisher state they make the same calls
and produce the same resulting state. -/
theorem c9_destroy_app_equals_deregister_app
    (svc : Publisher → Except String Publisher) (s : DeregState) :
    destroy_app svc s = deregister_app svc s :=
  rfl

/-- C10: when the publisher is `None` or its `registered` flag is false,
`deregister_app` makes no call to `deregister_service`, leaves the state
unchanged, and does not raise (in particular the `publisher.registered`
dereference on `None` is unreachable under the short-circuit guard). -/
theorem c10_deregister_app_noop_when_unregistered
    (svc : Publisher → Except String Publisher) (s : DeregState)
    (h : s.publisher = none ∨ ∃ q, s.publisher = some q ∧ q.registered = false) :
    deregister_app svc s = .ok s := by
  rcases h with h | ⟨q, hp, hr⟩
  · simp [deregister_app, h]
  · exact deregister_app_unregistered svc s q hp hr

/-- Witness for C10 at the concrete inputs: a `None` publisher, under a
deregister call that always raises. -/
theorem c10_deregister_app_noop_when_unregistered_witness :
    deregister_app (fun _ => .error "RegistryUnavailable")
      { publisher := none, deregisterCalls := 0 }
      = .ok { publisher := none, deregisterCalls := 0 } :=
  c10_deregister_app_noop_when_unregistered
    (fun _ => .error "RegistryUnavailable")
    { publisher := none, deregisterCalls := 0 } (Or.inl rfl)

/-- The configuration consulted by the service-discovery block of
`create_app` (`server/web/__init__.py` line 113): `Config.SD_STATUS` and the
presence of the `VCAP_APPLICATION` environment variable. -/
structure AppConfig where
  sdStatus : String
  vcapApplication : Option String
  deriving Repr, DecidableEq

/-- The observable outcome of `create_app`'s lifecycle wiring: the registered
publisher handle (if any) and whether the shutdown hooks (the SIGTERM and
SIGINT handlers and the atexit hook, `server/web/__init__.py` lines 129-131)
were armed. -/
structure App where
  publisher : Option Publisher
  hooksArmed : Bool
  deriving Repr, DecidableEq

/-- Embedding of the service-discovery section of `create_app`
(`server/web/__init__.py` lines 112-133).  `register` is the outcome of the
external `publisher.register_service(True)` call (line 123), which may raise.
The source wraps that call in no `try`/`except`: a raised exception
propagates out of `create_app`, and the shutdown hooks on lines 129-131 are
armed only after the call returns. -/
def create_app (cfg : AppConfig) (register : Except String Publisher) :
    Except String App :=
  if cfg.sdStatus = "ON" ∧ cfg.vcapApplication.isSome then
    match register with
    | .ok p => .ok { publisher := some p, hooksArmed := true }
    | .error m => .error m
  else
    .ok { publisher := none, hooksArmed := false }

/-- Outcome of running the `exit_app` signal handler
(`server/web/__init__.py` lines 126-128): either the process reaches
`exit(0)` and terminates with that code, or an exception raised by
`deregister_app(publisher)` propagates out before `exit(0)` runs. -/
inductive ProcessOutcome where
  | exited (code : Nat) (s : DeregState)
  | raised (msg : String)
  deriving Repr, DecidableEq

/-- Embedding of `exit_app` (`server/web/__init__.py` lines 126-128): it
calls `deregister_app(publisher)` and then `exit(0)`, with no `try`/`except`
around the deregistration. -/
def exit_app (svc : Publisher → Except String Publisher)
    (s : DeregState) : ProcessOutcome :=
  match deregister_app svc s with
  | .ok s2 => .exited 0 s2
  | .error m => .raised m

/-- Counterexample to C3 as stated: with discovery enabled
(`SD_STATUS = "ON"`, `VCAP_APPLICATION` present) and `register_service`
raising `RegistryUnavailable`, `create_app` does not degrade and continue —
the exception propagates out of `create_app`, so registration failure is
fatal to it. -/
theorem c3_registration_failure_counterexample :
    create_app { sdStatus := "ON", vcapApplication := some "vcap" }
      (.error "RegistryUnavailable")
      = .error "RegistryUnavailable" :=
  rfl

/-- C3 amended: when discovery is enabled and `register_service` raises, the
exception propagates out of `create_app` (no app value is produced, so in
particular no shutdown hooks are armed); registration failure is fatal to
`create_app` rather than degraded to a disabled state. -/
theorem c3_registration_failure_propagates (cfg : AppConfig) (m : String)
    (hsd : cfg.sdStatus = "ON") (hv : cfg.vcapApplication.isSome = true) :
    create_app cfg (.error m) = .error m := by
  simp [create_app, hsd, hv]

/-- Witness for the amended C3 at a concrete enabled configuration. -/
theorem c3_registration_failure_propagates_witness :
    create_app { sdStatus := "ON", vcapApplication := some "vcap" }
      (.error "RegistryUnavailable")
      = .error "RegistryUnavailable" :=
  c3_registration_failure_propagates
    { sdStatus := "ON", vcapApplication := some "vcap" }
    "RegistryUnavailable" rfl rfl

/-- Counterexample to C8 as stated: for a registered publisher whose
`deregister_service` call raises `RegistryUnavailable`, the signal handler
does not exit with code 0 — the exception propagates before `exit(0)` is
reached, so the exit code is not independent of the deregister outcome. -/
theorem c8_exit_code_counterexample :
    exit_app (fun _ => .error "RegistryUnavailable")
      { publisher := some { registered := true }, deregisterCalls := 0 }
      = .raised "RegistryUnavailable" :=
  rfl

/-- C8 amended: a signal-triggered shutdown exits with code 0 whenever the
deregistration attempt completes without raising (in particular whenever the
`deregister_service` call succeeds, or no call was needed); if the
deregister call raises, the exception propagates out of the handler and
`exit(0)` is never executed. -/
theorem c8_signal_exit_zero_on_success
    (svc : Publisher → Except String Publisher) (s s2 : DeregState)
    (h : deregister_app svc s = .ok s2) :
    exit_app svc s = .exited 0 s2 := by
  simp [exit_app, h]

/-- Witness for the amended C8: a registered publisher with a succeeding
deregister call exits with code 0. -/
theorem c8_signal_exit_zero_on_success_witness :
    exit_app (fun _ => .ok { registered := false })
      { publisher := some { registered := true }, deregisterCalls := 0 }
      = .exited 0 { publisher := some { registered := false }, deregisterCalls := 1 } :=
  c8_signal_exit_zero_on_success (fun _ => .ok { registered := false })
    { publisher := some { registered := true }, deregisterCalls := 0 }
    { publisher := some { registered := false }, deregisterCalls := 1 } rfl
